import Mathlib

/-!
Verification development for the face-recognition pipeline.

Shallow embedding of the identity-resolution core:
* `match_face`, `register_new_person`, `scanBest` embed `FaceMatcher.match_face`
  and `FaceMatcher._register_new_person` (src/app/matcher.py).  The numeric
  similarity kernel is passed as a parameter `simf`; a `none` result models a
  Python exception raised while comparing against a stored record (the
  `try/except continue` in the scan loop).  The database is a list of person
  documents; `insert_ok` models the boolean success of the Mongo insert.
* `update_person`, `get_person` embed `DatabaseHandler.update_person` /
  `get_person` (src/app/db_handler.py) over the list model.
* `check_blur`, `check_brightness`, `check_face_size`, `check_pose`,
  `check_quality` embed `QualityChecker` (src/app/quality.py).  The raw image
  metrics (Laplacian variance, mean grayscale brightness) computed by OpenCV
  are inputs; `cropEmpty` models the `face_img is None or face_img.size == 0`
  guard and cv2 exceptions inside the blur/brightness checks.
* `clamp_bbox`, `face_gate`, `pipeline_notifies` embed the per-face logic of
  `FaceRecognitionPipeline.process_frame` (src/app/pipeline.py).
* `compute_similarity` over `ℝ` embeds `FaceMatcher.compute_similarity`.
* `generate_unique_id` embeds src/app/utils/id_generator.py; Python strings
  are modelled as `List Char`, and the sha256 hexdigest is an input whose
  guaranteed shape (64 lowercase hex characters) appears as a hypothesis.

Timestamps are integers (seconds); time differences compare against the
hard-coded 60-second cooldown of `match_face`.
-/

/-- A stored identity document of the persons collection (db_handler.py
`insert_person` shape: person_id, embedding, first_seen, last_seen,
detection_count). `last_seen` is optional because `match_face` guards
`best_match.get('last_seen')`. -/
structure Person where
  person_id : String
  embedding : List ℚ
  first_seen : ℤ
  last_seen : Option ℤ
  detection_count : ℕ
deriving DecidableEq, Repr

/-- The dictionary returned by `FaceMatcher.match_face` /
`_register_new_person`. -/
structure MatchResult where
  matched : Bool
  person_id : Option String
  confidence : ℚ
  is_new_detection : Bool
  first_seen : Option ℤ
  last_seen : Option ℤ
  detection_count : ℕ
  error : Option String
deriving DecidableEq, Repr

/-- `DatabaseHandler.update_person`: set `last_seen` and increment
`detection_count` on the first document whose person_id matches
(Mongo `update_one`). -/
def update_person (pid : String) (lastSeen : ℤ) : List Person → List Person
  | [] => []
  | p :: ps =>
    if p.person_id = pid then
      { p with last_seen := some lastSeen, detection_count := p.detection_count + 1 } :: ps
    else
      p :: update_person pid lastSeen ps

/-- `DatabaseHandler.get_person`: `find_one` on person_id. -/
def get_person (pid : String) (db : List Person) : Option Person :=
  db.find? (fun p => decide (p.person_id = pid))

/-- One iteration of the best-match scan loop of `match_face`: skip a stored
record whose embedding is empty, skip one whose comparison raises
(`simf … = none`), otherwise keep the strictly larger similarity. -/
def scanStep (simf : List ℚ → List ℚ → Option ℚ) (q : List ℚ)
    (acc : ℚ × Option Person) (p : Person) : ℚ × Option Person :=
  if p.embedding = [] then acc
  else
    match simf q p.embedding with
    | none => acc
    | some s => if acc.1 < s then (s, some p) else acc

/-- The best-match scan of `match_face`: fold over all stored persons
starting from `best_similarity = -1`, `best_match = None`. -/
def scanBest (simf : List ℚ → List ℚ → Option ℚ) (q : List ℚ)
    (db : List Person) : ℚ × Option Person :=
  db.foldl (scanStep simf q) (-1, none)

/-- `FaceMatcher._register_new_person`: insert a fresh document
(first_seen = last_seen = now, detection_count = 1) and report
matched = false, is_new_detection = true, confidence = 0.0; if the insert
fails, report an error result with is_new_detection = false and leave the
database unchanged. -/
def register_new_person (genId : String) (insert_ok : Bool) (now : ℤ)
    (db : List Person) (embedding : List ℚ) : MatchResult × List Person :=
  if insert_ok then
    ({ matched := false, person_id := some genId, confidence := 0,
       is_new_detection := true, first_seen := some now, last_seen := some now,
       detection_count := 1, error := none },
     db ++ [{ person_id := genId, embedding := embedding, first_seen := now,
              last_seen := some now, detection_count := 1 }])
  else
    ({ matched := false, person_id := none, confidence := 0,
       is_new_detection := false, first_seen := none, last_seen := none,
       detection_count := 0, error := some "Database insertion failed" }, db)

/-- `FaceMatcher.match_face`: validate the embedding, register on an empty
catalog, otherwise scan for the best similarity; at or above the threshold
update and return the best match (is_new_detection false exactly when the
previous last_seen is within the 60 s cooldown), below it register a new
person.  The `.error` case is the uncaught `TypeError` Python would raise
when `best_match` is still `None` at the subscript on the matched path. -/
def match_face (simf : List ℚ → List ℚ → Option ℚ) (threshold : ℚ)
    (genId : String) (insert_ok : Bool) (now : ℤ) (db : List Person)
    (embedding : List ℚ) : Except String (MatchResult × List Person) :=
  if embedding = [] then
    .ok ({ matched := false, person_id := none, confidence := 0,
           is_new_detection := false, first_seen := none, last_seen := none,
           detection_count := 0, error := some "Invalid embedding" }, db)
  else if db = [] then
    .ok (register_new_person genId insert_ok now db embedding)
  else
    let best := scanBest simf embedding db
    if threshold ≤ best.1 then
      match best.2 with
      | none => .error "TypeError: best_match is None"
      | some p =>
        let is_new : Bool :=
          match p.last_seen with
          | none => true
          | some t => decide (60 ≤ now - t)
        let db2 := update_person p.person_id now db
        let updated := get_person p.person_id db2
        .ok ({ matched := true, person_id := some p.person_id,
               confidence := best.1, is_new_detection := is_new,
               first_seen := updated.map Person.first_seen,
               last_seen := some now,
               detection_count := (updated.map Person.detection_count).getD 0,
               error := none }, db2)
    else
      .ok (register_new_person genId insert_ok now db embedding)

/-- A stored record is well formed for query `q` when its embedding is
non-empty and the comparison does not raise. -/
def wellFormedRecord (simf : List ℚ → List ℚ → Option ℚ) (q : List ℚ)
    (p : Person) : Bool :=
  !(decide (p.embedding = [])) && (simf q p.embedding).isSome

/-- Notification decision of `process_frame` (pipeline.py lines 188-226):
in the matched branch `notifier.notify` is called exactly when
`is_new_detection` holds; in the non-matched branch it is called
unconditionally. -/
def pipeline_notifies (r : MatchResult) : Bool :=
  if r.matched then r.is_new_detection else true

/-- A detector bounding box (`face.bbox.astype(int)`). -/
structure BBox where
  x1 : ℤ
  y1 : ℤ
  x2 : ℤ
  y2 : ℤ
deriving DecidableEq, Repr

/-- The bbox clamping of `process_frame`:
`x1 = max(0, x1)`, `y1 = max(0, y1)`, `x2 = min(frame.shape[1], x2)`,
`y2 = min(frame.shape[0], y2)` where shape = (height, width, channels). -/
def clamp_bbox (frameW frameH : ℤ) (b : BBox) : BBox :=
  { x1 := max 0 b.x1, y1 := max 0 b.y1,
    x2 := min frameW b.x2, y2 := min frameH b.y2 }

/-- QualityChecker configuration (`config['quality']` with its defaults). -/
structure QCfg where
  min_blur_threshold : ℚ
  min_brightness : ℚ
  max_brightness : ℚ
  min_face_size : ℤ
deriving DecidableEq, Repr

/-- The default quality thresholds of quality.py. -/
def defaultQCfg : QCfg :=
  { min_blur_threshold := 150, min_brightness := 50, max_brightness := 210,
    min_face_size := 60 }

/-- `QualityChecker.check_blur`: on a missing/empty crop (or a cv2 failure)
return `(0.0, False)`, otherwise the Laplacian variance and whether it
reaches the blur threshold. -/
def check_blur (cropEmpty : Bool) (lapVar : ℚ) (cfg : QCfg) : ℚ × Bool :=
  if cropEmpty then (0, false)
  else (lapVar, decide (cfg.min_blur_threshold ≤ lapVar))

/-- `QualityChecker.check_brightness`: on a missing/empty crop return
`(0.0, False)`, otherwise the mean grayscale brightness and whether it lies
within the configured bounds. -/
def check_brightness (cropEmpty : Bool) (meanB : ℚ) (cfg : QCfg) : ℚ × Bool :=
  if cropEmpty then (0, false)
  else (meanB, decide (cfg.min_brightness ≤ meanB ∧ meanB ≤ cfg.max_brightness))

/-- `QualityChecker.check_face_size`: min of the raw bbox width/height
against the configured minimum. -/
def check_face_size (bbox : BBox) (cfg : QCfg) : ℤ × Bool :=
  let width := bbox.x2 - bbox.x1
  let height := bbox.y2 - bbox.y1
  let minDim := min width height
  (minDim, decide (cfg.min_face_size ≤ minDim))

/-- `QualityChecker.check_pose`: absent pose data passes with angle 0;
otherwise the max absolute angle must be strictly below 25 degrees. -/
def check_pose (pose : Option (ℚ × ℚ × ℚ)) : ℚ × Bool :=
  match pose with
  | none => (0, true)
  | some (pitch, yaw, roll) =>
    let maxAngle := max (max |pitch| |yaw|) |roll|
    (maxAngle, decide (maxAngle < 25))

/-- `QualityChecker.check_quality`: run the four checks in order, each failed
check contributing a 0 sub-score and an issue tag, each passing check its
normalized sub-score; the overall score is the numpy mean of the four
sub-scores. -/
def check_quality (cfg : QCfg) (cropEmpty : Bool) (lapVar meanB : ℚ)
    (bbox : BBox) (pose : Option (ℚ × ℚ × ℚ)) : ℚ × List String :=
  let blur := check_blur cropEmpty lapVar cfg
  let s1 : ℚ := if blur.2 then min 1 (blur.1 / 300) else 0
  let i1 : List String := if blur.2 then [] else ["blurry"]
  let bright := check_brightness cropEmpty meanB cfg
  let s2 : ℚ := if bright.2 then 1 - |bright.1 - 128| / 128 else 0
  let i2 : List String :=
    if bright.2 then []
    else if bright.1 < cfg.min_brightness then ["too_dark"] else ["too_bright"]
  let size := check_face_size bbox cfg
  let s3 : ℚ := if size.2 then min 1 ((size.1 : ℚ) / 150) else 0
  let i3 : List String := if size.2 then [] else ["too_small"]
  let pose' := check_pose pose
  let s4 : ℚ := if pose'.2 then 1 - pose'.1 / 25 else 0
  let i4 : List String := if pose'.2 then [] else ["bad_pose"]
  let scores : List ℚ := [s1, s2, s3, s4]
  let overall : ℚ := if scores = [] then 0 else scores.sum / (scores.length : ℚ)
  (overall, i1 ++ i2 ++ i3 ++ i4)

/-- Outcome of the per-face gating in `process_frame` before matching. -/
inductive FaceOutcome where
  | tooSmall : FaceOutcome
  | invalidCrop : FaceOutcome
  | qualityChecked : ℚ → List String → FaceOutcome
deriving DecidableEq, Repr

/-- The per-face gating of `process_frame` (pipeline.py lines 73-107):
clamp the bbox, reject when the clamped width or height is below the
minimum face size, reject a degenerate crop (`face_img.size == 0` or either
crop dimension below 10), otherwise run the quality check on the crop and
the raw detector bbox. -/
def face_gate (min_face_size : ℤ) (frameW frameH : ℤ) (bbox : BBox)
    (cfg : QCfg) (cropEmpty : Bool) (lapVar meanB : ℚ)
    (pose : Option (ℚ × ℚ × ℚ)) : FaceOutcome :=
  if (clamp_bbox frameW frameH bbox).x2 - (clamp_bbox frameW frameH bbox).x1 <
       min_face_size ∨
     (clamp_bbox frameW frameH bbox).y2 - (clamp_bbox frameW frameH bbox).y1 <
       min_face_size then
    .tooSmall
  else if ((clamp_bbox frameW frameH bbox).y2 -
             (clamp_bbox frameW frameH bbox).y1) *
           ((clamp_bbox frameW frameH bbox).x2 -
             (clamp_bbox frameW frameH bbox).x1) = 0 ∨
          (clamp_bbox frameW frameH bbox).y2 -
            (clamp_bbox frameW frameH bbox).y1 < 10 ∨
          (clamp_bbox frameW frameH bbox).x2 -
            (clamp_bbox frameW frameH bbox).x1 < 10 then
    .invalidCrop
  else
    .qualityChecked (check_quality cfg cropEmpty lapVar meanB bbox pose).1
      (check_quality cfg cropEmpty lapVar meanB bbox pose).2

/-- Dot product of two embeddings (`np.dot` on equal-length vectors). -/
def dot : List ℝ → List ℝ → ℝ :=
  fun a b => (List.zipWith (fun x y => x * y) a b).sum

/-- Euclidean norm (`np.linalg.norm`). -/
noncomputable def vnorm (a : List ℝ) : ℝ :=
  Real.sqrt (dot a a)

/-- The epsilon `1e-6` that `compute_similarity` adds to each norm. -/
noncomputable def simEps : ℝ := 1 / 1000000

/-- `FaceMatcher.compute_similarity`: divide each embedding by its norm plus
epsilon, then take the dot product. -/
noncomputable def compute_similarity (a b : List ℝ) : ℝ :=
  dot (a.map (fun x => x / (vnorm a + simEps)))
      (b.map (fun x => x / (vnorm b + simEps)))

/-- The sixteen lowercase hexadecimal characters a sha256 hexdigest is made
of. -/
def hexLower : List Char :=
  "0123456789abcdef".data

/-- The sixteen uppercase hexadecimal characters. -/
def hexUpper : List Char :=
  "0123456789ABCDEF".data

/-- `generate_unique_id` (id_generator.py): take the first 12 characters of
the sha256 hexdigest, uppercase them, and prepend "PERSON_".  Python strings
are modelled as character lists; the hexdigest is an input. -/
def generate_unique_id (hashHex : List Char) : List Char :=
  "PERSON_".data ++ (hashHex.take 12).map Char.toUpper

lemma scanStep_of_empty (simf : List ℚ → List ℚ → Option ℚ) (q : List ℚ)
    (acc : ℚ × Option Person) (p : Person) (h : p.embedding = []) :
    scanStep simf q acc p = acc := by
  rw [scanStep, if_pos h]

lemma scanStep_of_fail (simf : List ℚ → List ℚ → Option ℚ) (q : List ℚ)
    (acc : ℚ × Option Person) (p : Person) (h1 : p.embedding ≠ [])
    (h2 : simf q p.embedding = none) : scanStep simf q acc p = acc := by
  rw [scanStep, if_neg h1, h2]

lemma scanStep_of_some (simf : List ℚ → List ℚ → Option ℚ) (q : List ℚ)
    (acc : ℚ × Option Person) (p : Person) (s : ℚ) (h1 : p.embedding ≠ [])
    (h2 : simf q p.embedding = some s) :
    scanStep simf q acc p = if acc.1 < s then (s, some p) else acc := by
  rw [scanStep, if_neg h1, h2]

lemma foldl_scanStep_of_none (simf : List ℚ → List ℚ → Option ℚ) (q : List ℚ) :
    ∀ (db : List Person) (acc : ℚ × Option Person),
      (db.foldl (scanStep simf q) acc).2 = none →
      db.foldl (scanStep simf q) acc = acc := by
  intro db
  induction db with
  | nil => intro acc _; rfl
  | cons p rest ih =>
    intro acc h
    simp only [List.foldl_cons] at h ⊢
    by_cases hemb : p.embedding = []
    · rw [scanStep_of_empty simf q acc p hemb] at h ⊢
      exact ih acc h
    · cases hs : simf q p.embedding with
      | none =>
        rw [scanStep_of_fail simf q acc p hemb hs] at h ⊢
        exact ih acc h
      | some s =>
        rw [scanStep_of_some simf q acc p s hemb hs] at h ⊢
        by_cases hlt : acc.1 < s
        · rw [if_pos hlt] at h ⊢
          have hfix := ih _ h
          rw [hfix] at h
          simp at h
        · rw [if_neg hlt] at h ⊢
          exact ih acc h

lemma scanBest_of_snd_none (simf : List ℚ → List ℚ → Option ℚ) (q : List ℚ)
    (db : List Person) (h : (scanBest simf q db).2 = none) :
    scanBest simf q db = (-1, none) :=
  foldl_scanStep_of_none simf q db (-1, none) h

lemma foldl_scanStep_mem (simf : List ℚ → List ℚ → Option ℚ) (q : List ℚ) :
    ∀ (db : List Person) (acc : ℚ × Option Person) (p : Person),
      (db.foldl (scanStep simf q) acc).2 = some p → acc.2 = some p ∨ p ∈ db := by
  intro db
  induction db with
  | nil => intro acc p h; exact Or.inl h
  | cons hd rest ih =>
    intro acc p h
    simp only [List.foldl_cons] at h
    rcases ih _ p h with hacc | hmem
    · by_cases hemb : hd.embedding = []
      · rw [scanStep_of_empty simf q acc hd hemb] at hacc
        exact Or.inl hacc
      · cases hs : simf q hd.embedding with
        | none =>
          rw [scanStep_of_fail simf q acc hd hemb hs] at hacc
          exact Or.inl hacc
        | some s =>
          rw [scanStep_of_some simf q acc hd s hemb hs] at hacc
          by_cases hlt : acc.1 < s
          · rw [if_pos hlt] at hacc
            simp only [Option.some.injEq] at hacc
            exact Or.inr (hacc ▸ List.mem_cons_self hd rest)
          · rw [if_neg hlt] at hacc
            exact Or.inl hacc
    · exact Or.inr (List.mem_cons_of_mem hd hmem)

lemma scanBest_mem (simf : List ℚ → List ℚ → Option ℚ) (q : List ℚ)
    (db : List Person) (p : Person) (h : (scanBest simf q db).2 = some p) :
    p ∈ db := by
  rcases foldl_scanStep_mem simf q db (-1, none) p h with hacc | hmem
  · simp at hacc
  · exact hmem

lemma foldl_scanStep_filter (simf : List ℚ → List ℚ → Option ℚ) (q : List ℚ) :
    ∀ (db : List Person) (acc : ℚ × Option Person),
      db.foldl (scanStep simf q) acc =
      (db.filter (wellFormedRecord simf q)).foldl (scanStep simf q) acc := by
  intro db
  induction db with
  | nil => intro acc; rfl
  | cons hd rest ih =>
    intro acc
    by_cases hwf : wellFormedRecord simf q hd = true
    · rw [List.filter_cons_of_pos hwf, List.foldl_cons, List.foldl_cons]
      exact ih _
    · rw [List.filter_cons_of_neg (by simpa using hwf), List.foldl_cons]
      have hstep : scanStep simf q acc hd = acc := by
        unfold wellFormedRecord at hwf
        by_cases hemb : hd.embedding = []
        · exact scanStep_of_empty simf q acc hd hemb
        · cases hs : simf q hd.embedding with
          | none => exact scanStep_of_fail simf q acc hd hemb hs
          | some s =>
            exfalso
            apply hwf
            simp [hemb, hs]
      rw [hstep]
      exact ih acc

lemma scanBest_filter (simf : List ℚ → List ℚ → Option ℚ) (q : List ℚ)
    (db : List Person) :
    scanBest simf q db = scanBest simf q (db.filter (wellFormedRecord simf q)) :=
  foldl_scanStep_filter simf q db (-1, none)

lemma get_person_update (now : ℤ) :
    ∀ (db : List Person) (p : Person), p ∈ db →
      (db.map Person.person_id).Nodup →
      get_person p.person_id (update_person p.person_id now db) =
        some { p with last_seen := some now,
                      detection_count := p.detection_count + 1 } := by
  intro db
  induction db with
  | nil => intro p hp _; simp at hp
  | cons hd rest ih =>
    intro p hp hnd
    simp only [List.map_cons, List.nodup_cons] at hnd
    by_cases hid : hd.person_id = p.person_id
    · have hphd : p = hd := by
        rcases List.mem_cons.mp hp with h | h
        · exact h
        · exfalso
          apply hnd.1
          rw [hid]
          exact List.mem_map_of_mem Person.person_id h
      subst hphd
      rw [update_person, if_pos hid]
      simp [get_person, List.find?]
    · have hprest : p ∈ rest := by
        rcases List.mem_cons.mp hp with h | h
        · exact absurd (by rw [h]) hid
        · exact h
      rw [update_person, if_neg hid]
      have hfind : get_person p.person_id (hd :: update_person p.person_id now rest) =
          get_person p.person_id (update_person p.person_id now rest) := by
        simp [get_person, List.find?, hid]
      rw [hfind]
      exact ih p hprest hnd.2

lemma match_face_eq_register (simf : List ℚ → List ℚ → Option ℚ)
    (threshold : ℚ) (genId : String) (ok : Bool) (now : ℤ) (db : List Person)
    (q : List ℚ) (hq : q ≠ [])
    (h : db = [] ∨ (scanBest simf q db).1 < threshold) :
    match_face simf threshold genId ok now db q =
      .ok (register_new_person genId ok now db q) := by
  rcases h with hdb | hbest
  · rw [match_face, if_neg hq, if_pos hdb]
  · by_cases hdb : db = []
    · rw [match_face, if_neg hq, if_pos hdb]
    · rw [match_face, if_neg hq, if_neg hdb]
      simp only [if_neg (not_le.mpr hbest)]

lemma match_face_eq_matched (simf : List ℚ → List ℚ → Option ℚ)
    (threshold : ℚ) (genId : String) (ok : Bool) (now : ℤ) (db : List Person)
    (q : List ℚ) (p : Person) (hq : q ≠ []) (hdb : db ≠ [])
    (hp : (scanBest simf q db).2 = some p)
    (hth : threshold ≤ (scanBest simf q db).1) :
    match_face simf threshold genId ok now db q =
      .ok ({ matched := true, person_id := some p.person_id,
             confidence := (scanBest simf q db).1,
             is_new_detection :=
               (match p.last_seen with
                | none => true
                | some t => decide (60 ≤ now - t)),
             first_seen :=
               (get_person p.person_id (update_person p.person_id now db)).map
                 Person.first_seen,
             last_seen := some now,
             detection_count :=
               ((get_person p.person_id (update_person p.person_id now db)).map
                 Person.detection_count).getD 0,
             error := none }, update_person p.person_id now db) := by
  rw [match_face, if_neg hq, if_neg hdb]
  simp only [if_pos hth, hp]

/-- C8 (confirmed): for every raw detector bounding box and frame
dimensions, the clamped bounding box used by the orchestrator satisfies
`x1 ≥ 0`, `y1 ≥ 0`, `x2 ≤ frameWidth` and `y2 ≤ frameHeight`. -/
theorem c8_bbox_clamped (frameW frameH : ℤ) (b : BBox) :
    0 ≤ (clamp_bbox frameW frameH b).x1 ∧
    0 ≤ (clamp_bbox frameW frameH b).y1 ∧
    (clamp_bbox frameW frameH b).x2 ≤ frameW ∧
    (clamp_bbox frameW frameH b).y2 ≤ frameH :=
  ⟨le_max_left 0 b.x1, le_max_left 0 b.y1, min_le_left frameW b.x2,
   min_le_left frameH b.y2⟩

/-- C1 (corrected): for an accepted face (non-empty embedding) whose match
result was produced with a successful database insert, the dispatcher's
notify is invoked by `process_frame` exactly when `is_new_detection` is
true; without the successful-insert assumption the non-matched branch still
notifies even though `is_new_detection` is false. -/
theorem c1_notify_iff_new_detection (simf : List ℚ → List ℚ → Option ℚ)
    (threshold : ℚ) (genId : String) (now : ℤ) (db : List Person)
    (q : List ℚ) (r : MatchResult) (db' : List Person) (hq : q ≠ [])
    (h : match_face simf threshold genId true now db q = .ok (r, db')) :
    pipeline_notifies r = r.is_new_detection := by
  by_cases hdb : db = []
  · rw [match_face_eq_register simf threshold genId true now db q hq
      (Or.inl hdb)] at h
    rw [register_new_person, if_pos rfl] at h
    simp only [Except.ok.injEq, Prod.mk.injEq] at h
    rw [← h.1]
    rfl
  · by_cases hth : threshold ≤ (scanBest simf q db).1
    · cases hp : (scanBest simf q db).2 with
      | none =>
        rw [match_face, if_neg hq, if_neg hdb] at h
        simp only [if_pos hth, hp] at h
        exact absurd h (by simp)
      | some p =>
        rw [match_face_eq_matched simf threshold genId true now db q p hq hdb
          hp hth] at h
        simp only [Except.ok.injEq, Prod.mk.injEq] at h
        rw [← h.1]
        rfl
    · rw [match_face_eq_register simf threshold genId true now db q hq
        (Or.inr (not_le.mp hth))] at h
      rw [register_new_person, if_pos rfl] at h
      simp only [Except.ok.injEq, Prod.mk.injEq] at h
      rw [← h.1]
      rfl

/-- C1 counterexample: when the registration insert fails, `match_face`
returns matched = false and is_new_detection = false, yet the non-matched
branch of `process_frame` still invokes notify, so the claimed "if and only
if" fails at this input. -/
theorem c1_notify_despite_not_new :
    match_face (fun _ _ => some 1) (3/5) "PERSON_B" false 100 [] [1] =
      .ok (⟨false, none, 0, false, none, none, 0,
            some "Database insertion failed"⟩, []) ∧
    pipeline_notifies
      ⟨false, none, 0, false, none, none, 0,
       some "Database insertion failed"⟩ = true ∧
    (⟨false, none, 0, false, none, none, 0,
      some "Database insertion failed"⟩ : MatchResult).is_new_detection =
      false :=
  ⟨rfl, rfl, rfl⟩

/-- C1 witness: the amended theorem applied to a concrete matched face
within the cooldown. -/
theorem c1_notify_iff_new_detection_witness :
    ([1] : List ℚ) ≠ [] ∧
    match_face (fun _ _ => some (9/10)) (3/5) "PERSON_B" true 30
      [⟨"PERSON_A", [1], 0, some 0, 2⟩] [1] =
      .ok (⟨true, some "PERSON_A", 9/10, false, some 0, some 30, 3, none⟩,
           [⟨"PERSON_A", [1], 0, some 30, 3⟩]) ∧
    pipeline_notifies
      ⟨true, some "PERSON_A", 9/10, false, some 0, some 30, 3, none⟩ =
      (⟨true, some "PERSON_A", 9/10, false, some 0, some 30, 3, none⟩ :
        MatchResult).is_new_detection := by
  have hq : ([1] : List ℚ) ≠ [] := by simp
  have h : match_face (fun _ _ => some (9/10)) (3/5) "PERSON_B" true 30
      [⟨"PERSON_A", [1], 0, some 0, 2⟩] [1] =
      .ok (⟨true, some "PERSON_A", 9/10, false, some 0, some 30, 3, none⟩,
           [⟨"PERSON_A", [1], 0, some 30, 3⟩]) := by
    norm_num [match_face, scanBest, scanStep, register_new_person,
      update_person, get_person, List.find?]
  exact ⟨hq, h,
    c1_notify_iff_new_detection (fun _ _ => some (9/10)) (3/5) "PERSON_B" 30
      [⟨"PERSON_A", [1], 0, some 0, 2⟩] [1]
      ⟨true, some "PERSON_A", 9/10, false, some 0, some 30, 3, none⟩
      [⟨"PERSON_A", [1], 0, some 30, 3⟩] hq h⟩

/-- C2 (corrected): for a non-empty embedding matched against a non-empty
catalog, the returned confidence equals the best scanned similarity when
matched = true, but it equals 0.0 (not the best similarity) when
matched = false. -/
theorem c2_confidence_best_or_zero (simf : List ℚ → List ℚ → Option ℚ)
    (threshold : ℚ) (genId : String) (ok : Bool) (now : ℤ)
    (db : List Person) (q : List ℚ) (hq : q ≠ []) (hdb : db ≠ [])
    (hthr : -1 < threshold) :
    ∃ r db', match_face simf threshold genId ok now db q = .ok (r, db') ∧
      (r.matched = true → r.confidence = (scanBest simf q db).1) ∧
      (r.matched = false → r.confidence = 0) := by
  by_cases hth : threshold ≤ (scanBest simf q db).1
  · cases hp : (scanBest simf q db).2 with
    | none =>
      exfalso
      have hval := scanBest_of_snd_none simf q db hp
      rw [hval] at hth
      exact absurd (lt_of_lt_of_le hthr hth) (lt_irrefl _)
    | some p =>
      exact ⟨_, _,
        match_face_eq_matched simf threshold genId ok now db q p hq hdb hp hth,
        fun _ => rfl, fun hm => by simp at hm⟩
  · have hreg := match_face_eq_register simf threshold genId ok now db q hq
      (Or.inr (not_le.mp hth))
    refine ⟨(register_new_person genId ok now db q).1,
      (register_new_person genId ok now db q).2, hreg, ?_, ?_⟩
    · intro hm
      exfalso
      cases ok <;> simp [register_new_person] at hm
    · intro _
      cases ok <;> simp [register_new_person]

/-- C2 counterexample: a catalog scan whose best similarity is 1/2 (below
the 0.6 threshold) registers a new identity and reports confidence 0.0, not
the best similarity, so the claim fails at this input. -/
theorem c2_confidence_zero_on_register :
    match_face (fun _ _ => some (1/2)) (3/5) "PERSON_B" true 100
      [⟨"PERSON_A", [1], 0, some 0, 1⟩] [1] =
      .ok (⟨false, some "PERSON_B", 0, true, some 100, some 100, 1, none⟩,
           [⟨"PERSON_A", [1], 0, some 0, 1⟩,
            ⟨"PERSON_B", [1], 100, some 100, 1⟩]) ∧
    (scanBest (fun _ _ => some (1/2)) [1]
      [⟨"PERSON_A", [1], 0, some 0, 1⟩]).1 = 1/2 ∧
    (⟨false, some "PERSON_B", 0, true, some 100, some 100, 1, none⟩ :
      MatchResult).confidence = 0 ∧
    (0 : ℚ) ≠ 1/2 := by
  refine ⟨?_, ?_, rfl, by norm_num⟩
  · norm_num [match_face, scanBest, scanStep, register_new_person]
  · norm_num [scanBest, scanStep]

/-- C2 witness: the amended theorem applied to a concrete one-person
catalog. -/
theorem c2_confidence_best_or_zero_witness :
    ([1] : List ℚ) ≠ [] ∧
    ([⟨"PERSON_A", [1], 0, some 0, 1⟩] : List Person) ≠ [] ∧
    (-1 : ℚ) < 3/5 ∧
    (∃ r db', match_face (fun _ _ => some (9/10)) (3/5) "PERSON_B" true 100
        [⟨"PERSON_A", [1], 0, some 0, 1⟩] [1] = .ok (r, db') ∧
      (r.matched = true →
        r.confidence = (scanBest (fun _ _ => some (9/10)) [1]
          [⟨"PERSON_A", [1], 0, some 0, 1⟩]).1) ∧
      (r.matched = false → r.confidence = 0)) := by
  refine ⟨by simp, by simp, by norm_num, ?_⟩
  exact c2_confidence_best_or_zero (fun _ _ => some (9/10)) (3/5) "PERSON_B"
    true 100 [⟨"PERSON_A", [1], 0, some 0, 1⟩] [1] (by simp) (by simp)
    (by norm_num)

/-- C3 (confirmed): with a non-empty embedding, a successful insert, a fresh
generated identifier and a well-formed catalog, `match_face` registers a new
identity (identifier distinct from all stored ones, first_seen = last_seen =
now, detection_count = 1, matched = false, is_new_detection = true) exactly
when the catalog is empty or the best similarity is strictly below the
threshold; otherwise it updates the best-matching identity (last_seen = now,
detection_count incremented) and returns matched = true with that identity's
stored identifier. -/
theorem c3_register_iff_below_threshold (simf : List ℚ → List ℚ → Option ℚ)
    (threshold : ℚ) (genId : String) (now : ℤ) (db : List Person)
    (q : List ℚ) (hq : q ≠ []) (hthr : -1 < threshold)
    (hfresh : ∀ p ∈ db, p.person_id ≠ genId)
    (hnd : (db.map Person.person_id).Nodup)
    (hwf : ∀ p ∈ db, p.embedding ≠ [] ∧ (simf q p.embedding).isSome) :
    ∃ r db', match_face simf threshold genId true now db q = .ok (r, db') ∧
      (r.matched = false ↔ (db = [] ∨ (scanBest simf q db).1 < threshold)) ∧
      (r.matched = false →
        r.person_id = some genId ∧ r.is_new_detection = true ∧
        r.first_seen = some now ∧ r.last_seen = some now ∧
        r.detection_count = 1 ∧
        db' = db ++ [⟨genId, q, now, some now, 1⟩] ∧
        (db'.map Person.person_id).Nodup) ∧
      (r.matched = true →
        ∃ p, p ∈ db ∧ (scanBest simf q db).2 = some p ∧
          threshold ≤ (scanBest simf q db).1 ∧
          r.person_id = some p.person_id ∧
          r.detection_count = p.detection_count + 1 ∧
          get_person p.person_id db' =
            some { p with last_seen := some now,
                          detection_count := p.detection_count + 1 }) := by
  by_cases hcond : db = [] ∨ (scanBest simf q db).1 < threshold
  · have hreg := match_face_eq_register simf threshold genId true now db q hq
      hcond
    rw [register_new_person, if_pos rfl] at hreg
    refine ⟨_, _, hreg, ⟨fun _ => hcond, fun _ => rfl⟩, ?_, ?_⟩
    · intro _
      refine ⟨rfl, rfl, rfl, rfl, rfl, rfl, ?_⟩
      rw [List.map_append]
      rw [List.nodup_append]
      refine ⟨hnd, List.nodup_singleton genId, ?_⟩
      intro a ha hb
      simp only [List.map_cons, List.map_nil, List.mem_singleton] at hb
      subst hb
      rcases List.mem_map.mp ha with ⟨p, hpmem, hpid⟩
      exact hfresh p hpmem hpid
    · intro hm
      simp at hm
  · push_neg at hcond
    obtain ⟨hdb, hth⟩ := hcond
    cases hp : (scanBest simf q db).2 with
    | none =>
      exfalso
      have hval := scanBest_of_snd_none simf q db hp
      rw [hval] at hth
      exact absurd (lt_of_lt_of_le hthr hth) (lt_irrefl _)
    | some p =>
      have hmem := scanBest_mem simf q db p hp
      have hmatch := match_face_eq_matched simf threshold genId true now db q
        p hq hdb hp hth
      have hget := get_person_update now db p hmem hnd
      refine ⟨_, _, hmatch, ?_, ?_, ?_⟩
      · constructor
        · intro hfalse
          simp at hfalse
        · intro hor
          exact absurd hor (by push_neg; exact ⟨hdb, hth⟩)
      · intro hfalse
        simp at hfalse
      · intro _
        refine ⟨p, hmem, rfl, hth, rfl, ?_, hget⟩
        show ((get_person p.person_id (update_person p.person_id now db)).map
          Person.detection_count).getD 0 = p.detection_count + 1
        rw [hget]
        rfl

/-- C3 witness: the theorem applied to a concrete one-person catalog whose
best similarity is below the threshold, so a new identity is registered. -/
theorem c3_register_iff_below_threshold_witness :
    ([1] : List ℚ) ≠ [] ∧ (-1 : ℚ) < 3/5 ∧
    (∀ p ∈ ([⟨"PERSON_A", [1], 0, some 0, 1⟩] : List Person),
      p.person_id ≠ "PERSON_B") ∧
    (([⟨"PERSON_A", [1], 0, some 0, 1⟩] : List Person).map
      Person.person_id).Nodup ∧
    (∀ p ∈ ([⟨"PERSON_A", [1], 0, some 0, 1⟩] : List Person),
      p.embedding ≠ [] ∧ ((fun _ _ => some (1/2) :
        List ℚ → List ℚ → Option ℚ) [1] p.embedding).isSome) ∧
    (∃ r db', match_face (fun _ _ => some (1/2)) (3/5) "PERSON_B" true 100
        [⟨"PERSON_A", [1], 0, some 0, 1⟩] [1] = .ok (r, db') ∧
      (r.matched = false ↔
        (([⟨"PERSON_A", [1], 0, some 0, 1⟩] : List Person) = [] ∨
          (scanBest (fun _ _ => some (1/2)) [1]
            [⟨"PERSON_A", [1], 0, some 0, 1⟩]).1 < 3/5)) ∧
      (r.matched = false →
        r.person_id = some "PERSON_B" ∧ r.is_new_detection = true ∧
        r.first_seen = some 100 ∧ r.last_seen = some 100 ∧
        r.detection_count = 1 ∧
        db' = [⟨"PERSON_A", [1], 0, some 0, 1⟩] ++
          [⟨"PERSON_B", [1], 100, some 100, 1⟩] ∧
        (db'.map Person.person_id).Nodup) ∧
      (r.matched = true →
        ∃ p, p ∈ ([⟨"PERSON_A", [1], 0, some 0, 1⟩] : List Person) ∧
          (scanBest (fun _ _ => some (1/2)) [1]
            [⟨"PERSON_A", [1], 0, some 0, 1⟩]).2 = some p ∧
          (3/5 : ℚ) ≤ (scanBest (fun _ _ => some (1/2)) [1]
            [⟨"PERSON_A", [1], 0, some 0, 1⟩]).1 ∧
          r.person_id = some p.person_id ∧
          r.detection_count = p.detection_count + 1 ∧
          get_person p.person_id db' =
            some { p with last_seen := some 100,
                          detection_count := p.detection_count + 1 })) := by
  refine ⟨by simp, by norm_num, ?_, by simp, ?_, ?_⟩
  · intro p hp
    simp only [List.mem_singleton] at hp
    subst hp
    simp
  · intro p hp
    simp only [List.mem_singleton] at hp
    subst hp
    simp
  · exact c3_register_iff_below_threshold (fun _ _ => some (1/2)) (3/5)
      "PERSON_B" 100 [⟨"PERSON_A", [1], 0, some 0, 1⟩] [1] (by simp)
      (by norm_num)
      (by intro p hp; simp only [List.mem_singleton] at hp; subst hp; simp)
      (by simp)
      (by intro p hp; simp only [List.mem_singleton] at hp; subst hp; simp)

/-- C4 (confirmed): when the scan's best match is a stored identity `p` with
similarity at or above the threshold, re-matching yields
is_new_detection = false if the elapsed time since `p`'s previous last_seen
is below the 60 s cooldown and true once at least 60 s have elapsed, and the
successful match increments `p`'s detection_count by exactly 1. -/
theorem c4_cooldown_and_count (simf : List ℚ → List ℚ → Option ℚ)
    (threshold : ℚ) (genId : String) (ok : Bool) (now : ℤ)
    (db : List Person) (q : List ℚ) (p : Person) (s : ℚ) (hq : q ≠ [])
    (hscan : scanBest simf q db = (s, some p)) (hth : threshold ≤ s)
    (hnd : (db.map Person.person_id).Nodup) :
    ∃ r db', match_face simf threshold genId ok now db q = .ok (r, db') ∧
      r.matched = true ∧
      (∀ t, p.last_seen = some t →
        (now - t < 60 → r.is_new_detection = false) ∧
        (60 ≤ now - t → r.is_new_detection = true)) ∧
      (p.last_seen = none → r.is_new_detection = true) ∧
      r.detection_count = p.detection_count + 1 ∧
      get_person p.person_id db' =
        some { p with last_seen := some now,
                      detection_count := p.detection_count + 1 } := by
  have hdb : db ≠ [] := by
    intro hnil
    subst hnil
    simp [scanBest] at hscan
  have hp2 : (scanBest simf q db).2 = some p := by rw [hscan]
  have hth' : threshold ≤ (scanBest simf q db).1 := by rw [hscan]; exact hth
  have hmem := scanBest_mem simf q db p hp2
  have hmatch := match_face_eq_matched simf threshold genId ok now db q p hq
    hdb hp2 hth'
  have hget := get_person_update now db p hmem hnd
  refine ⟨_, _, hmatch, rfl, ?_, ?_, ?_, hget⟩
  · intro t ht
    constructor
    · intro hlt
      show (match p.last_seen with
            | none => true
            | some t => decide (60 ≤ now - t)) = false
      rw [ht]
      exact decide_eq_false (not_le.mpr hlt)
    · intro hge
      show (match p.last_seen with
            | none => true
            | some t => decide (60 ≤ now - t)) = true
      rw [ht]
      exact decide_eq_true hge
  · intro ht
    show (match p.last_seen with
          | none => true
          | some t => decide (60 ≤ now - t)) = true
    rw [ht]
  · show ((get_person p.person_id (update_person p.person_id now db)).map
      Person.detection_count).getD 0 = p.detection_count + 1
    rw [hget]
    rfl

/-- C4 witness: the theorem applied to a one-person catalog matched 30
seconds after its previous last_seen (inside the cooldown). -/
theorem c4_cooldown_and_count_witness :
    ([1] : List ℚ) ≠ [] ∧
    scanBest (fun _ _ => some (9/10)) [1]
      [⟨"PERSON_A", [1], 0, some 0, 2⟩] =
      (9/10, some ⟨"PERSON_A", [1], 0, some 0, 2⟩) ∧
    (3/5 : ℚ) ≤ 9/10 ∧
    (([⟨"PERSON_A", [1], 0, some 0, 2⟩] : List Person).map
      Person.person_id).Nodup ∧
    (∃ r db', match_face (fun _ _ => some (9/10)) (3/5) "PERSON_B" true 30
        [⟨"PERSON_A", [1], 0, some 0, 2⟩] [1] = .ok (r, db') ∧
      r.matched = true ∧
      (∀ t, (⟨"PERSON_A", [1], 0, some 0, 2⟩ : Person).last_seen = some t →
        ((30 : ℤ) - t < 60 → r.is_new_detection = false) ∧
        ((60 : ℤ) ≤ 30 - t → r.is_new_detection = true)) ∧
      ((⟨"PERSON_A", [1], 0, some 0, 2⟩ : Person).last_seen = none →
        r.is_new_detection = true) ∧
      r.detection_count = 3 ∧
      get_person "PERSON_A" db' = some ⟨"PERSON_A", [1], 0, some 30, 3⟩) := by
  have hscan : scanBest (fun _ _ => some (9/10)) [1]
      [⟨"PERSON_A", [1], 0, some 0, 2⟩] =
      (9/10, some ⟨"PERSON_A", [1], 0, some 0, 2⟩) := by
    norm_num [scanBest, scanStep]
  refine ⟨by simp, hscan, by norm_num, by simp, ?_⟩
  exact c4_cooldown_and_count (fun _ _ => some (9/10)) (3/5) "PERSON_B" true
    30 [⟨"PERSON_A", [1], 0, some 0, 2⟩] [1]
    ⟨"PERSON_A", [1], 0, some 0, 2⟩ (9/10) (by simp) hscan (by norm_num)
    (by simp)

/-- C9 (confirmed): the scan underlying `match_face` computes the same best
match over the full catalog as over its well-formed records only (stored
identities with an empty embedding, or whose comparison raises, are skipped
while every remaining record is still considered), and for any catalog and
any threshold above -1 the call returns a result instead of propagating an
exception. -/
theorem c9_scan_skips_malformed (simf : List ℚ → List ℚ → Option ℚ)
    (threshold : ℚ) (genId : String) (ok : Bool) (now : ℤ)
    (db : List Person) (q : List ℚ) (hq : q ≠ []) (hthr : -1 < threshold) :
    scanBest simf q db =
      scanBest simf q (db.filter (wellFormedRecord simf q)) ∧
    ∃ r db', match_face simf threshold genId ok now db q = .ok (r, db') := by
  refine ⟨scanBest_filter simf q db, ?_⟩
  by_cases hdb : db = []
  · exact ⟨_, _,
      match_face_eq_register simf threshold genId ok now db q hq (Or.inl hdb)⟩
  · by_cases hth : threshold ≤ (scanBest simf q db).1
    · cases hp : (scanBest simf q db).2 with
      | none =>
        exfalso
        have hval := scanBest_of_snd_none simf q db hp
        rw [hval] at hth
        exact absurd (lt_of_lt_of_le hthr hth) (lt_irrefl _)
      | some p =>
        exact ⟨_, _, match_face_eq_matched simf threshold genId ok now db q p
          hq hdb hp hth⟩
    · exact ⟨_, _, match_face_eq_register simf threshold genId ok now db q hq
        (Or.inr (not_le.mp hth))⟩

/-- C9 witness: the theorem applied to a catalog containing a malformed
record (empty stored embedding) next to a well-formed one. -/
theorem c9_scan_skips_malformed_witness :
    ([1] : List ℚ) ≠ [] ∧ (-1 : ℚ) < 3/5 ∧
    (scanBest (fun _ _ => some (9/10)) [1]
        [⟨"PERSON_A", [], 0, none, 1⟩, ⟨"PERSON_B", [1], 0, some 0, 1⟩] =
      scanBest (fun _ _ => some (9/10)) [1]
        (([⟨"PERSON_A", [], 0, none, 1⟩, ⟨"PERSON_B", [1], 0, some 0, 1⟩] :
            List Person).filter
          (wellFormedRecord (fun _ _ => some (9/10)) [1])) ∧
    ∃ r db', match_face (fun _ _ => some (9/10)) (3/5) "PERSON_C" true 100
        [⟨"PERSON_A", [], 0, none, 1⟩, ⟨"PERSON_B", [1], 0, some 0, 1⟩] [1] =
      .ok (r, db')) := by
  refine ⟨by simp, by norm_num, ?_⟩
  exact c9_scan_skips_malformed (fun _ _ => some (9/10)) (3/5) "PERSON_C"
    true 100 [⟨"PERSON_A", [], 0, none, 1⟩, ⟨"PERSON_B", [1], 0, some 0, 1⟩]
    [1] (by simp) (by norm_num)

lemma check_pose_nonneg (pose : Option (ℚ × ℚ × ℚ)) :
    0 ≤ (check_pose pose).1 := by
  cases pose with
  | none => exact le_refl 0
  | some v =>
    obtain ⟨pitch, yaw, roll⟩ := v
    exact le_trans (abs_nonneg pitch)
      (le_trans (le_max_left |pitch| |yaw|)
        (le_max_left (max |pitch| |yaw|) |roll|))

lemma check_pose_le_25 (pose : Option (ℚ × ℚ × ℚ))
    (h : (check_pose pose).2 = true) : (check_pose pose).1 ≤ 25 := by
  cases pose with
  | none => norm_num [check_pose]
  | some v =>
    obtain ⟨pitch, yaw, roll⟩ := v
    simp only [check_pose, decide_eq_true_eq] at h
    exact le_of_lt h

lemma check_blur_fst_nonneg (cropEmpty : Bool) (lapVar : ℚ) (cfg : QCfg)
    (hv : 0 ≤ lapVar) : 0 ≤ (check_blur cropEmpty lapVar cfg).1 := by
  rw [check_blur]
  split_ifs
  · exact le_refl 0
  · exact hv

/-- C5 (confirmed): the overall quality score is the arithmetic mean of
exactly four per-criterion sub-scores, each lying in [0,1] and forced to 0
when its criterion fails; a Laplacian variance below the blur threshold
always puts `blurry` in the issues with a 0 sharpness sub-score, and a
passing crop with mean brightness exactly 128 gets a brightness sub-score of
1.0. -/
theorem c5_quality_score_mean (cfg : QCfg) (cropEmpty : Bool)
    (lapVar meanB : ℚ) (bbox : BBox) (pose : Option (ℚ × ℚ × ℚ))
    (hv : 0 ≤ lapVar) (hb0 : 0 ≤ meanB) (hb1 : meanB ≤ 255)
    (hsz : 0 ≤ cfg.min_face_size) :
    ∃ s1 s2 s3 s4 : ℚ,
      (check_quality cfg cropEmpty lapVar meanB bbox pose).1 =
        (s1 + s2 + s3 + s4) / 4 ∧
      (0 ≤ s1 ∧ s1 ≤ 1) ∧ (0 ≤ s2 ∧ s2 ≤ 1) ∧
      (0 ≤ s3 ∧ s3 ≤ 1) ∧ (0 ≤ s4 ∧ s4 ≤ 1) ∧
      ((check_blur cropEmpty lapVar cfg).2 = false → s1 = 0) ∧
      ((check_brightness cropEmpty meanB cfg).2 = false → s2 = 0) ∧
      ((check_face_size bbox cfg).2 = false → s3 = 0) ∧
      ((check_pose pose).2 = false → s4 = 0) ∧
      (lapVar < cfg.min_blur_threshold →
        s1 = 0 ∧
        "blurry" ∈ (check_quality cfg cropEmpty lapVar meanB bbox pose).2) ∧
      (cropEmpty = false → meanB = 128 → cfg.min_brightness ≤ 128 →
        128 ≤ cfg.max_brightness → s2 = 1) := by
  refine ⟨if (check_blur cropEmpty lapVar cfg).2 then
      min 1 ((check_blur cropEmpty lapVar cfg).1 / 300) else 0,
    if (check_brightness cropEmpty meanB cfg).2 then
      1 - |(check_brightness cropEmpty meanB cfg).1 - 128| / 128 else 0,
    if (check_face_size bbox cfg).2 then
      min 1 (((check_face_size bbox cfg).1 : ℚ) / 150) else 0,
    if (check_pose pose).2 then 1 - (check_pose pose).1 / 25 else 0,
    ?_, ?_, ?_, ?_, ?_, ?_, ?_, ?_, ?_, ?_, ?_⟩
  · simp only [check_quality, List.cons_ne_nil, if_false, List.sum_cons,
      List.sum_nil, List.length_cons, List.length_nil]
    norm_num
    ring
  · constructor
    · split_ifs with h
      · exact le_min (by norm_num)
          (div_nonneg (check_blur_fst_nonneg cropEmpty lapVar cfg hv)
            (by norm_num))
      · exact le_refl 0
    · split_ifs with h
      · exact min_le_left 1 _
      · norm_num
  · constructor
    · split_ifs with h
      · rw [check_brightness] at h ⊢
        split_ifs at h ⊢ with hce
        simp only [decide_eq_true_eq] at h
        have habs : |meanB - 128| ≤ 128 :=
          abs_le.mpr ⟨by linarith, by linarith⟩
        show 0 ≤ 1 - |meanB - 128| / 128
        have hd : |meanB - 128| / 128 ≤ 1 := by linarith
        linarith
      · exact le_refl 0
    · split_ifs with h
      · have : 0 ≤ |(check_brightness cropEmpty meanB cfg).1 - 128| / 128 :=
          div_nonneg (abs_nonneg _) (by norm_num)
        linarith
      · norm_num
  · constructor
    · split_ifs with h
      · rw [check_face_size] at h
        simp only [decide_eq_true_eq] at h
        refine le_min (by norm_num) (div_nonneg ?_ (by norm_num))
        have : (0 : ℤ) ≤ (check_face_size bbox cfg).1 := le_trans hsz h
        exact_mod_cast this
      · exact le_refl 0
    · split_ifs with h
      · exact min_le_left 1 _
      · norm_num
  · constructor
    · split_ifs with h
      · have h25 := check_pose_le_25 pose h
        have : (check_pose pose).1 / 25 ≤ 1 := by linarith
        linarith
      · exact le_refl 0
    · split_ifs with h
      · have h0 := check_pose_nonneg pose
        have : 0 ≤ (check_pose pose).1 / 25 := by positivity
        linarith
      · norm_num
  · intro h
    rw [if_neg (by rw [h]; exact Bool.false_ne_true)]
  · intro h
    rw [if_neg (by rw [h]; exact Bool.false_ne_true)]
  · intro h
    rw [if_neg (by rw [h]; exact Bool.false_ne_true)]
  · intro h
    rw [if_neg (by rw [h]; exact Bool.false_ne_true)]
  · intro h
    have hblur : (check_blur cropEmpty lapVar cfg).2 = false := by
      rw [check_blur]
      split_ifs
      · rfl
      · exact decide_eq_false (not_le.mpr h)
    constructor
    · rw [if_neg (by rw [hblur]; exact Bool.false_ne_true)]
    · simp only [check_quality, hblur]
      simp
  · intro hce hm hlo hhi
    have hbr : check_brightness cropEmpty meanB cfg = (128, true) := by
      rw [check_brightness, hce]
      simp only [Bool.false_eq_true, if_false, hm]
      rw [decide_eq_true ⟨hlo, hhi⟩]
    rw [hbr]
    norm_num

/-- C5 witness: the theorem applied to a sharp, well-lit, large, frontal
face crop with the default thresholds. -/
theorem c5_quality_score_mean_witness :
    (0 : ℚ) ≤ 300 ∧ (0 : ℚ) ≤ 128 ∧ (128 : ℚ) ≤ 255 ∧
    (0 : ℤ) ≤ defaultQCfg.min_face_size ∧
    (∃ s1 s2 s3 s4 : ℚ,
      (check_quality defaultQCfg false 300 128 ⟨0, 0, 150, 150⟩ none).1 =
        (s1 + s2 + s3 + s4) / 4 ∧
      (0 ≤ s1 ∧ s1 ≤ 1) ∧ (0 ≤ s2 ∧ s2 ≤ 1) ∧
      (0 ≤ s3 ∧ s3 ≤ 1) ∧ (0 ≤ s4 ∧ s4 ≤ 1) ∧
      ((check_blur false 300 defaultQCfg).2 = false → s1 = 0) ∧
      ((check_brightness false 128 defaultQCfg).2 = false → s2 = 0) ∧
      ((check_face_size ⟨0, 0, 150, 150⟩ defaultQCfg).2 = false → s3 = 0) ∧
      ((check_pose none).2 = false → s4 = 0) ∧
      ((300 : ℚ) < defaultQCfg.min_blur_threshold →
        s1 = 0 ∧
        "blurry" ∈
          (check_quality defaultQCfg false 300 128 ⟨0, 0, 150, 150⟩ none).2) ∧
      (false = false → (128 : ℚ) = 128 → defaultQCfg.min_brightness ≤ 128 →
        128 ≤ defaultQCfg.max_brightness → s2 = 1)) := by
  refine ⟨by norm_num, by norm_num, by norm_num, by norm_num [defaultQCfg], ?_⟩
  exact c5_quality_score_mean defaultQCfg false 300 128 ⟨0, 0, 150, 150⟩ none
    (by norm_num) (by norm_num) (by norm_num) (by norm_num [defaultQCfg])

/-- C6 (corrected): a face whose clamped crop is degenerate (zero area or a
dimension below 10 pixels) is rejected by the orchestrator before any
quality evaluation; however the quality checker itself does not
short-circuit on a missing/empty crop: the blur and brightness sub-scores
are 0 but the size and pose checks still run, so the overall score is only
bounded by 1/2 rather than equal to 0. -/
theorem c6_empty_crop (min_face_size frameW frameH : ℤ) (bbox : BBox)
    (cfg : QCfg) (cropEmpty : Bool) (lapVar meanB : ℚ)
    (pose : Option (ℚ × ℚ × ℚ)) (hmin : 10 ≤ min_face_size)
    (hdeg : ((clamp_bbox frameW frameH bbox).y2 -
               (clamp_bbox frameW frameH bbox).y1) *
             ((clamp_bbox frameW frameH bbox).x2 -
               (clamp_bbox frameW frameH bbox).x1) = 0 ∨
            (clamp_bbox frameW frameH bbox).y2 -
              (clamp_bbox frameW frameH bbox).y1 < 10 ∨
            (clamp_bbox frameW frameH bbox).x2 -
              (clamp_bbox frameW frameH bbox).x1 < 10) :
    (face_gate min_face_size frameW frameH bbox cfg cropEmpty lapVar meanB
        pose = .tooSmall ∨
     face_gate min_face_size frameW frameH bbox cfg cropEmpty lapVar meanB
        pose = .invalidCrop) ∧
    (cropEmpty = true →
      (check_quality cfg cropEmpty lapVar meanB bbox pose).1 ≤ 1/2 ∧
      "blurry" ∈ (check_quality cfg cropEmpty lapVar meanB bbox pose).2) := by
  constructor
  · by_cases hsz : (clamp_bbox frameW frameH bbox).x2 -
        (clamp_bbox frameW frameH bbox).x1 < min_face_size ∨
        (clamp_bbox frameW frameH bbox).y2 -
          (clamp_bbox frameW frameH bbox).y1 < min_face_size
    · left
      rw [face_gate, if_pos hsz]
    · right
      rw [face_gate, if_neg hsz, if_pos hdeg]
  · intro hce
    subst hce
    have hblur : check_blur true lapVar cfg = (0, false) := rfl
    have hbr : check_brightness true meanB cfg = (0, false) := rfl
    constructor
    · have h3le : (if (check_face_size bbox cfg).2 then
          min 1 (((check_face_size bbox cfg).1 : ℚ) / 150) else 0) ≤ 1 := by
        split_ifs
        · exact min_le_left 1 _
        · norm_num
      have h4le : (if (check_pose pose).2 then
          1 - (check_pose pose).1 / 25 else 0) ≤ 1 := by
        split_ifs with h
        · have h0 := check_pose_nonneg pose
          have hq0 : 0 ≤ (check_pose pose).1 / 25 := by positivity
          linarith
        · norm_num
      simp only [check_quality, hblur, hbr, Bool.false_eq_true, if_false,
        List.cons_ne_nil, List.sum_cons, List.sum_nil, List.length_cons,
        List.length_nil]
      norm_num
      linarith [h3le, h4le]
    · simp [check_quality, hblur]

/-- C6 counterexample: on an empty crop with a large bbox and no pose data,
`check_quality` returns an overall score of 1/2 (the size and pose checks
still ran and passed), not the claimed short-circuit score of 0. -/
theorem c6_empty_crop_score_half :
    check_quality defaultQCfg true 0 0 ⟨0, 0, 150, 150⟩ none =
      (1/2, ["blurry", "too_dark"]) ∧ (1/2 : ℚ) ≠ 0 := by
  constructor
  · norm_num [check_quality, check_blur, check_brightness, check_face_size,
      check_pose, defaultQCfg, min_def, List.cons_ne_nil]
  · norm_num

/-- C6 witness: the amended theorem applied to a face whose clamped crop is
5 by 5 pixels on a 640 by 480 frame, with an empty crop for the quality
part. -/
theorem c6_empty_crop_witness :
    (10 : ℤ) ≤ 40 ∧
    (((clamp_bbox 640 480 ⟨0, 0, 5, 5⟩).y2 -
        (clamp_bbox 640 480 ⟨0, 0, 5, 5⟩).y1) *
      ((clamp_bbox 640 480 ⟨0, 0, 5, 5⟩).x2 -
        (clamp_bbox 640 480 ⟨0, 0, 5, 5⟩).x1) = 0 ∨
     (clamp_bbox 640 480 ⟨0, 0, 5, 5⟩).y2 -
       (clamp_bbox 640 480 ⟨0, 0, 5, 5⟩).y1 < 10 ∨
     (clamp_bbox 640 480 ⟨0, 0, 5, 5⟩).x2 -
       (clamp_bbox 640 480 ⟨0, 0, 5, 5⟩).x1 < 10) ∧
    ((face_gate 40 640 480 ⟨0, 0, 5, 5⟩ defaultQCfg true 0 0 none =
        .tooSmall ∨
      face_gate 40 640 480 ⟨0, 0, 5, 5⟩ defaultQCfg true 0 0 none =
        .invalidCrop) ∧
     (true = true →
       (check_quality defaultQCfg true 0 0 ⟨0, 0, 5, 5⟩ none).1 ≤ 1/2 ∧
       "blurry" ∈ (check_quality defaultQCfg true 0 0 ⟨0, 0, 5, 5⟩ none).2)) := by
  have hdeg : ((clamp_bbox 640 480 ⟨0, 0, 5, 5⟩).y2 -
        (clamp_bbox 640 480 ⟨0, 0, 5, 5⟩).y1) *
      ((clamp_bbox 640 480 ⟨0, 0, 5, 5⟩).x2 -
        (clamp_bbox 640 480 ⟨0, 0, 5, 5⟩).x1) = 0 ∨
      (clamp_bbox 640 480 ⟨0, 0, 5, 5⟩).y2 -
        (clamp_bbox 640 480 ⟨0, 0, 5, 5⟩).y1 < 10 ∨
      (clamp_bbox 640 480 ⟨0, 0, 5, 5⟩).x2 -
        (clamp_bbox 640 480 ⟨0, 0, 5, 5⟩).x1 < 10 := by
    right
    left
    norm_num [clamp_bbox]
  exact ⟨by norm_num, hdeg,
    c6_empty_crop 40 640 480 ⟨0, 0, 5, 5⟩ defaultQCfg true 0 0 none
      (by norm_num) hdeg⟩

lemma dot_nil_left (b : List ℝ) : dot [] b = 0 := rfl

lemma dot_nil_right (a : List ℝ) : dot a [] = 0 := by
  cases a <;> rfl

lemma dot_cons (x y : ℝ) (a b : List ℝ) :
    dot (x :: a) (y :: b) = x * y + dot a b := rfl

lemma dot_comm : ∀ a b : List ℝ, dot a b = dot b a := by
  intro a
  induction a with
  | nil => intro b; rw [dot_nil_left, dot_nil_right]
  | cons x a' ih =>
    intro b
    cases b with
    | nil => rw [dot_nil_left, dot_nil_right]
    | cons y b' => rw [dot_cons, dot_cons, mul_comm, ih]

lemma dot_self_nonneg : ∀ a : List ℝ, 0 ≤ dot a a := by
  intro a
  induction a with
  | nil => exact le_refl 0
  | cons x a' ih =>
    rw [dot_cons]
    exact add_nonneg (mul_self_nonneg x) ih

lemma dot_map_div (k1 k2 : ℝ) :
    ∀ a b : List ℝ,
      dot (a.map fun x => x / k1) (b.map fun x => x / k2) =
        dot a b / (k1 * k2) := by
  intro a
  induction a with
  | nil => intro b; rw [List.map_nil, dot_nil_left, dot_nil_left, zero_div]
  | cons x a' ih =>
    intro b
    cases b with
    | nil =>
      rw [List.map_nil, dot_nil_right, dot_nil_right, zero_div]
    | cons y b' =>
      rw [List.map_cons, List.map_cons, dot_cons, dot_cons, ih,
        div_mul_div_comm, add_div]

lemma compute_similarity_eq (a b : List ℝ) :
    compute_similarity a b =
      dot a b / ((vnorm a + simEps) * (vnorm b + simEps)) := by
  rw [compute_similarity, dot_map_div]

lemma vnorm_sq (a : List ℝ) : vnorm a ^ 2 = dot a a :=
  Real.sq_sqrt (dot_self_nonneg a)

/-- C7 (confirmed): `compute_similarity` is symmetric in its two arguments,
and for any embedding with positive norm the self-similarity is at most 1
and at least `1 - 2 * epsilon / norm`, i.e. equal to 1 up to the epsilon
added to the norms. -/
theorem c7_similarity_symm_self (a b : List ℝ) :
    compute_similarity a b = compute_similarity b a ∧
    (0 < vnorm a →
      compute_similarity a a ≤ 1 ∧
      1 - 2 * simEps / vnorm a ≤ compute_similarity a a) := by
  constructor
  · rw [compute_similarity_eq, compute_similarity_eq, dot_comm, mul_comm]
  · intro hn
    have heps : (0 : ℝ) < simEps := by rw [simEps]; norm_num
    have hsq : dot a a = vnorm a ^ 2 := (vnorm_sq a).symm
    rw [compute_similarity_eq, hsq]
    have hden : 0 < (vnorm a + simEps) * (vnorm a + simEps) := by positivity
    constructor
    · rw [div_le_one hden]
      nlinarith [hn, heps]
    · have h1 : 1 - 2 * simEps / vnorm a = (vnorm a - 2 * simEps) / vnorm a := by
        field_simp
      rw [h1, div_le_div_iff₀ hn hden]
      nlinarith [hn, heps, mul_pos heps heps, mul_pos (mul_pos heps heps) hn]

/-- C7 witness: symmetry at the embeddings [1] and [2], and the near-1
self-similarity bounds at the unit embedding [1]. -/
theorem c7_similarity_symm_self_witness :
    compute_similarity [1] [2] = compute_similarity [2] [1] ∧
    0 < vnorm [1] ∧
    (compute_similarity [1] [1] ≤ 1 ∧
      1 - 2 * simEps / vnorm [1] ≤ compute_similarity [1] [1]) := by
  have hd : dot [1] [1] = 1 := by
    rw [dot_cons, dot_nil_left]
    norm_num
  have h1 : vnorm [1] = 1 := by
    rw [vnorm, hd, Real.sqrt_one]
  have hpos : (0 : ℝ) < vnorm [1] := by rw [h1]; norm_num
  exact ⟨(c7_similarity_symm_self [1] [2]).1, hpos,
    (c7_similarity_symm_self [1] [1]).2 hpos⟩

lemma hexUpper_of_lower : ∀ c ∈ hexLower, Char.toUpper c ∈ hexUpper := by
  decide

/-- C10 (confirmed): given the shape guaranteed by a sha256 hexdigest (64
lowercase hexadecimal characters), every generated identifier is "PERSON_"
followed by exactly 12 uppercase hexadecimal characters, 19 characters in
total. -/
theorem c10_id_format (hashHex : List Char) (hlen : hashHex.length = 64)
    (hhex : ∀ c ∈ hashHex, c ∈ hexLower) :
    (generate_unique_id hashHex).length = 19 ∧
    (generate_unique_id hashHex).take 7 = "PERSON_".data ∧
    ((generate_unique_id hashHex).drop 7).length = 12 ∧
    (∀ c ∈ (generate_unique_id hashHex).drop 7, c ∈ hexUpper) := by
  have hlen7 : ("PERSON_".data).length = 7 := rfl
  have htail : (generate_unique_id hashHex).drop 7 =
      (hashHex.take 12).map Char.toUpper := by
    rw [generate_unique_id, ← hlen7, List.drop_left]
  refine ⟨?_, ?_, ?_, ?_⟩
  · rw [generate_unique_id, List.length_append, List.length_map,
      List.length_take, hlen, hlen7]
    norm_num
  · rw [generate_unique_id, ← hlen7, List.take_left]
  · rw [htail, List.length_map, List.length_take, hlen]
    norm_num
  · rw [htail]
    intro c hc
    rcases List.mem_map.mp hc with ⟨c', hc', hup⟩
    rw [← hup]
    exact hexUpper_of_lower c' (hhex c' (List.take_subset 12 hashHex hc'))

/-- C10 witness: the theorem applied to the sha256 hexdigest of the empty
string. -/
theorem c10_id_format_witness :
    ("e3b0c44298fc1c149afbf4c8996fb92427ae41e4649b934ca495991b7852b855".data).length = 64 ∧
    (∀ c ∈ "e3b0c44298fc1c149afbf4c8996fb92427ae41e4649b934ca495991b7852b855".data,
      c ∈ hexLower) ∧
    (generate_unique_id
      "e3b0c44298fc1c149afbf4c8996fb92427ae41e4649b934ca495991b7852b855".data).length = 19 ∧
    (generate_unique_id
      "e3b0c44298fc1c149afbf4c8996fb92427ae41e4649b934ca495991b7852b855".data).take 7 =
      "PERSON_".data ∧
    ((generate_unique_id
      "e3b0c44298fc1c149afbf4c8996fb92427ae41e4649b934ca495991b7852b855".data).drop 7).length = 12 ∧
    (∀ c ∈ (generate_unique_id
      "e3b0c44298fc1c149afbf4c8996fb92427ae41e4649b934ca495991b7852b855".data).drop 7,
      c ∈ hexUpper) := by
  have hlen :
      ("e3b0c44298fc1c149afbf4c8996fb92427ae41e4649b934ca495991b7852b855".data).length = 64 := by
    decide
  have hhex :
      ∀ c ∈ "e3b0c44298fc1c149afbf4c8996fb92427ae41e4649b934ca495991b7852b855".data,
        c ∈ hexLower := by
    decide
  obtain ⟨h1, h2, h3, h4⟩ := c10_id_format
    "e3b0c44298fc1c149afbf4c8996fb92427ae41e4649b934ca495991b7852b855".data hlen hhex
  exact ⟨hlen, hhex, h1, h2, h3, h4⟩
